import Mathlib

/-!
Verification of the Skills_Exchange application (main/models.py, main/views.py,
main/admin.py) against its specification.  The relational rows are embedded as
Lean structures, the request handlers as pure functions over those rows (state
passed explicitly), timestamps as natural numbers, nullable columns as Option,
and the Django choice columns as the literal strings the source stores.
-/

namespace SkillsExchange

/-- Embedding of main.models.Exchange: the columns the lifecycle logic reads or
writes.  Foreign keys are carried as ids; skill1/skill2 are nullable in the
schema (on_delete=SET_NULL) hence Option. -/
structure Exchange where
  id : Nat
  user1 : Nat
  user2 : Nat
  skill1 : Option Nat
  skill2 : Option Nat
  status : String
  notes : String
  user1_completed : Bool
  user2_completed : Bool
  user1_completed_date : Option Nat
  user2_completed_date : Option Nat
  admin_approved : Bool
  admin_approved_date : Option Nat
deriving DecidableEq, Repr

/-- The kind of user-facing notice a handler attaches via django.contrib.messages. -/
inductive Notice where
  | success
  | info
  | error
deriving DecidableEq, Repr

/-- The outcome of a handler: a redirect to a named route (with an optional id
parameter), a rendered template, or the 404 page raised by get_object_or_404. -/
inductive Response where
  | redirect (route : String) (param : Option Nat)
  | render (template : String)
  | notFound
deriving DecidableEq, Repr

/-- Whether a handler outcome is a redirect. -/
def Response.isRedirect : Response → Bool
  | Response.redirect _ _ => true
  | _ => false

/-- models.Exchange.both_users_completed (models.py 122-123). -/
def both_users_completed (e : Exchange) : Bool :=
  e.user1_completed && e.user2_completed

/-- models.Exchange.completion_status (models.py 125-133). -/
def completion_status (e : Exchange) : String :=
  if e.admin_approved then "Admin Approved"
  else if both_users_completed e then "Awaiting Admin Approval"
  else if e.user1_completed || e.user2_completed then "Partially Complete"
  else "In Progress"

/-- The row built by Exchange.objects.create in start_exchange (views.py 542-548)
and propose_exchange_view (views.py 618-625): status pending, completion flags
and admin approval at their model defaults. -/
def create_exchange (id u1 u2 : Nat) (s1 s2 : Option Nat) (notes : String) : Exchange :=
  { id := id, user1 := u1, user2 := u2, skill1 := s1, skill2 := s2,
    status := "pending", notes := notes,
    user1_completed := false, user2_completed := false,
    user1_completed_date := none, user2_completed_date := none,
    admin_approved := false, admin_approved_date := none }

/-- The row update performed by accept_exchange (views.py 653-654). -/
def accept_row (e : Exchange) : Exchange := { e with status := "active" }

/-- The row update performed by reject_exchange (views.py 670-671). -/
def reject_row (e : Exchange) : Exchange := { e with status := "cancelled" }

/-- views.mark_exchange_complete (views.py 690-713), after the get_object_or_404
lookup has produced the active exchange the caller participates in. -/
def mark_exchange_complete (now user : Nat) (e : Exchange) : Exchange × Notice :=
  if (user == e.user1) && !e.user1_completed then
    ({ e with user1_completed := true, user1_completed_date := some now }, Notice.success)
  else if !(user == e.user1) && !e.user2_completed then
    ({ e with user2_completed := true, user2_completed_date := some now }, Notice.success)
  else
    (e, Notice.info)

/-- views.admin_approve_exchange (views.py 198-214), after the get_object_or_404
lookup by id. -/
def admin_approve_exchange (now : Nat) (e : Exchange) : Exchange × Notice :=
  if !both_users_completed e then (e, Notice.error)
  else if e.admin_approved then (e, Notice.info)
  else ({ e with
          admin_approved := true, admin_approved_date := some now,
          status := "completed" }, Notice.success)

/-- ExchangeAdmin.approve_exchanges, per selected row (admin.py 123-129). -/
def approve_exchanges_row (now : Nat) (e : Exchange) : Exchange :=
  if both_users_completed e && !e.admin_approved then
    { e with admin_approved := true, admin_approved_date := some now, status := "completed" }
  else e

/-- ExchangeAdmin.reset_completion, per selected row (admin.py 150-158). -/
def reset_completion_row (e : Exchange) : Exchange :=
  { e with
    user1_completed := false, user2_completed := false,
    user1_completed_date := none, user2_completed_date := none,
    admin_approved := false, admin_approved_date := none }

/-- ExchangeAdmin.mark_pending_approval, per selected row (admin.py 137-142). -/
def mark_pending_approval_row (e : Exchange) : Exchange :=
  if e.user1_completed && e.user2_completed && !e.admin_approved then
    { e with status := "active" }
  else e

/-- The filter of the get_object_or_404 lookup in accept_exchange (views.py 644-651):
the row with this id whose user2 is the caller and whose status is pending. -/
def accept_lookup (caller eid : Nat) (e : Exchange) : Bool :=
  e.id == eid && e.user2 == caller && e.status == "pending"

/-- views.accept_exchange over the Exchange table: get_object_or_404 either raises
the 404 page (no row touched) or yields the row, whose status is set to active
and saved; on success the handler redirects to the dashboard. -/
def accept_exchange (caller : Nat) (db : List Exchange) (eid : Nat) :
    List Exchange × Response :=
  match db.find? (accept_lookup caller eid) with
  | none => (db, Response.notFound)
  | some e =>
      (db.map (fun x => if x.id == e.id then accept_row x else x),
       Response.redirect ("dashboard") none)

/-- The §8 invariant: admin approval implies both completion flags. -/
def exchange_invariant (e : Exchange) : Prop :=
  e.admin_approved = true → e.user1_completed = true ∧ e.user2_completed = true

instance (e : Exchange) : Decidable (exchange_invariant e) := by
  unfold exchange_invariant
  infer_instance

/-- A concrete exchange used to instantiate theorems with hypotheses: active,
both participants done, not yet admin approved. -/
def exA : Exchange :=
  { id := 1, user1 := 1, user2 := 2, skill1 := some 10, skill2 := some 20,
    status := "active", notes := "",
    user1_completed := true, user2_completed := true,
    user1_completed_date := some 5, user2_completed_date := some 6,
    admin_approved := false, admin_approved_date := none }

/-- Embedding of the django.contrib.auth User row: the columns the handlers in
this development read (identity, staff flags, account creation time). -/
structure AuthUser where
  id : Nat
  is_staff : Bool
  is_superuser : Bool
  date_joined : Nat
deriving DecidableEq, Repr

/-- views.admin_toggle_staff (views.py 242-257): guarded against self-targeting,
it flips the target staff flag and then copies the new value into is_superuser. -/
def admin_toggle_staff (caller target : AuthUser) : AuthUser × Notice × Response :=
  if target.id == caller.id then
    (target, Notice.error, Response.redirect ("admin_users") none)
  else
    ({ target with is_staff := !target.is_staff, is_superuser := !target.is_staff },
     Notice.success, Response.redirect ("admin_users") none)

/-- Embedding of main.models.UserSkill. -/
structure UserSkill where
  id : Nat
  user : Nat
  skill : Nat
  role : String
  proficiency : String
  experience_years : Nat
deriving DecidableEq, Repr

/-- views.propose_exchange_view (views.py 590-631) on a POST with a chosen
skill: the two get_object_or_404 lookups run over the UserSkill table, the
self-proposal guard rejects with an error notice before any write, and
otherwise an Exchange row is created with user1 the caller and user2 the owner
of the target skill.  The result carries the created row (if any), the notice
emitted (if any), and the response. -/
def propose_exchange_view (skills : List UserSkill) (caller usid : Nat)
    (my_skill_id : Option Nat) (notes : String) (newId : Nat) :
    Option Exchange × Option Notice × Response :=
  match skills.find? (fun s => s.id == usid && s.role == "offer") with
  | none => (none, none, Response.notFound)
  | some other =>
    if other.user == caller then
      (none, some Notice.error, Response.redirect ("marketplace") none)
    else
      match my_skill_id with
      | none => (none, some Notice.error, Response.redirect ("propose_exchange") (some usid))
      | some mid =>
        match skills.find? (fun s => s.id == mid && s.user == caller && s.role == "offer") with
        | none => (none, none, Response.notFound)
        | some my =>
          (some (create_exchange newId caller other.user (some my.skill) (some other.skill) notes),
           some Notice.success, Response.redirect ("dashboard") none)

/-- A concrete pending exchange with user2 = 2, used to instantiate the accept
handler theorems. -/
def exB : Exchange :=
  { id := 1, user1 := 1, user2 := 2, skill1 := some 10, skill2 := some 20,
    status := "pending", notes := "",
    user1_completed := false, user2_completed := false,
    user1_completed_date := none, user2_completed_date := none,
    admin_approved := false, admin_approved_date := none }

/-- A concrete UserSkill table holding one offered skill, owned by user 5. -/
def skills0 : List UserSkill :=
  [{ id := 1, user := 5, skill := 10, role := "offer", proficiency := "beginner",
     experience_years := 0 }]

/-- A reciprocal match as assembled by dashboard_view (views.py 429-437): the
counterpart, the skill they offer that the viewer seeks, and the skill they
seek that the viewer offers.  The display name and initials shown alongside are
presentation only and are not modelled. -/
structure MatchEntry where
  user_id : Nat
  offer : Nat
  want : Nat
deriving DecidableEq, Repr

/-- The skill ids the viewer seeks (views.py 394-396). -/
def my_seeking_skills (skills : List UserSkill) (u : Nat) : List Nat :=
  (skills.filter (fun s => s.user == u && s.role == "seek")).map (fun s => s.skill)

/-- The skill ids the viewer offers (views.py 397-399). -/
def my_offering_skills (skills : List UserSkill) (u : Nat) : List Nat :=
  (skills.filter (fun s => s.user == u && s.role == "offer")).map (fun s => s.skill)

/-- The sliced candidate query of views.py 404-408: rows offering a skill the
viewer seeks, excluding the viewer, capped at the first 10. -/
def potential_matches (skills : List UserSkill) (u : Nat) (seeking : List Nat) :
    List UserSkill :=
  (skills.filter
    (fun s => seeking.contains s.skill && s.role == "offer" && !(s.user == u))).take 10

/-- The match loop of views.py 410-439: for each candidate, a .first() query
looks for a row by which the candidate seeks a skill the viewer offers; when it
exists the candidate is appended as a match and the loop breaks at 3 matches. -/
def find_matches_go (skills : List UserSkill) (offering : List Nat)
    (acc : List MatchEntry) : List UserSkill → List MatchEntry
  | [] => acc
  | m :: rest =>
    match skills.find?
        (fun s => s.user == m.user && s.role == "seek" && offering.contains s.skill) with
    | none => find_matches_go skills offering acc rest
    | some t =>
      let acc2 := acc ++ [{ user_id := m.user, offer := m.skill, want := t.skill }]
      if 3 ≤ acc2.length then acc2 else find_matches_go skills offering acc2 rest

/-- find_matches of §4.2, implemented inline in dashboard_view (views.py
393-439): empty when the viewer seeks nothing or offers nothing (the queryset
truthiness guard), otherwise the reciprocal-match loop over the capped
candidate query. -/
def find_matches (skills : List UserSkill) (u : Nat) : List MatchEntry :=
  if (my_seeking_skills skills u).isEmpty || (my_offering_skills skills u).isEmpty then []
  else
    find_matches_go skills (my_offering_skills skills u) []
      (potential_matches skills u (my_seeking_skills skills u))

/-- A concrete UserSkill table realizing the §8 matching example: user 1 offers
skill 10 and seeks skill 20; user 2 offers skill 20 and seeks skill 10. -/
def skillsMatch : List UserSkill :=
  [ { id := 1, user := 1, skill := 10, role := "offer", proficiency := "beginner",
      experience_years := 0 },
    { id := 2, user := 1, skill := 20, role := "seek", proficiency := "beginner",
      experience_years := 0 },
    { id := 3, user := 2, skill := 20, role := "offer", proficiency := "beginner",
      experience_years := 0 },
    { id := 4, user := 2, skill := 10, role := "seek", proficiency := "beginner",
      experience_years := 0 } ]

/-- The single reciprocal match the table skillsMatch produces for user 1. -/
def matchDemo : MatchEntry := { user_id := 2, offer := 20, want := 10 }

/-- Embedding of main.models.Message. -/
structure Message where
  id : Nat
  sender : Nat
  receiver : Nat
  content : String
  timestamp : Nat
  is_read : Bool
deriving DecidableEq, Repr

/-- A conversation card as assembled by messages_view (views.py 779-785). -/
structure Conversation where
  user : AuthUser
  last_message : Option Message
  unread_count : Nat
deriving DecidableEq, Repr

/-- The counterpart ids of views.py 732-742: receivers of the viewer messages
united with senders of messages to the viewer, as a deduplicated set. -/
def conversation_user_ids (msgs : List Message) (me : Nat) : List Nat :=
  (((msgs.filter (fun m => m.sender == me)).map (fun m => m.receiver))
    ++ ((msgs.filter (fun m => m.receiver == me)).map (fun m => m.sender))).dedup

/-- The per-pair message list of views.py 764-769. -/
def pair_messages (msgs : List Message) (me uid : Nat) : List Message :=
  msgs.filter (fun m => (m.sender == me && m.receiver == uid)
    || (m.sender == uid && m.receiver == me))

/-- The Python max(key=timestamp, default=None) of views.py 770: a left fold
keeping the first maximal element. -/
def last_message (msgs : List Message) : Option Message :=
  msgs.foldl (fun acc m =>
    match acc with
    | none => some m
    | some b => if m.timestamp > b.timestamp then some m else some b) none

/-- The unread counter of views.py 772-777: among the pair messages, those sent
by the counterpart to the viewer and not yet read. -/
def unread_count (msgs : List Message) (me uid : Nat) : Nat :=
  ((pair_messages msgs me uid).filter
    (fun m => m.sender == uid && m.receiver == me && !m.is_read)).length

/-- The conversation cards of views.py 757-785; a counterpart id missing from
the User table is skipped (the continue of views.py 760-761). -/
def build_conversations (users : List AuthUser) (msgs : List Message) (me : Nat) :
    List Conversation :=
  (conversation_user_ids msgs me).filterMap (fun uid =>
    match users.find? (fun v => v.id == uid) with
    | none => none
    | some v =>
      some ⟨v, last_message (pair_messages msgs me uid), unread_count msgs me uid⟩)

/-- The sort key of views.py 788-793: last message timestamp, falling back to
the counterpart account-creation time. -/
def conversation_sort_key (c : Conversation) : Nat :=
  match c.last_message with
  | some m => m.timestamp
  | none => c.user.date_joined

/-- The descending-order comparator the sort of views.py 788-793 uses. -/
def conv_le (a b : Conversation) : Bool :=
  conversation_sort_key b ≤ conversation_sort_key a

/-- The sorted conversation list of views.py 757-793: a stable sort on the key,
descending (reverse=True). -/
def conversations_sorted (users : List AuthUser) (msgs : List Message) (me : Nat) :
    List Conversation :=
  (build_conversations users msgs me).mergeSort conv_le

/-- views.py 804-806: mark all stored messages counterpart to viewer as read. -/
def mark_read (msgs : List Message) (me sel : Nat) : List Message :=
  msgs.map (fun m =>
    if m.sender == sel && m.receiver == me && !m.is_read then
      { m with is_read := true }
    else m)

/-- Python str.strip as used at views.py 820: drop leading and trailing
whitespace characters. -/
def strip (s : String) : String :=
  String.mk (((s.data.dropWhile Char.isWhitespace).reverse.dropWhile
    Char.isWhitespace).reverse)

/-- The send handling of messages_view (views.py 818-825): the posted content
is stripped; non-empty content (Python truthiness) creates one Message row from
viewer to counterpart and redirects back to the same thread, empty content
writes nothing and falls through to rendering the same thread. -/
def handle_send (msgs : List Message) (me uid : Nat) (raw : String)
    (now newId : Nat) : List Message × Response :=
  if strip raw = "" then
    (msgs, Response.render ("messages"))
  else
    (msgs ++ [⟨newId, me, uid, strip raw, now, false⟩],
     Response.redirect ("conversation") (some uid))

/-- messages_view (views.py 726-833): builds the sorted conversation list from
the stored messages; when a thread is selected, looks up the counterpart
(get_object_or_404), marks the counterpart messages read, and handles an
optional POST send.  Returns the conversation cards (computed before the
read-marking), the stored messages afterwards, and the response. -/
def messages_view (users : List AuthUser) (msgs : List Message) (me : Nat)
    (user_id : Option Nat) (post_content : Option String) (now newId : Nat) :
    List Conversation × List Message × Response :=
  let convs := conversations_sorted users msgs me
  match user_id with
  | none => (convs, msgs, Response.render ("messages"))
  | some uid =>
    match users.find? (fun v => v.id == uid) with
    | none => (convs, msgs, Response.notFound)
    | some _ =>
      let msgs1 := mark_read msgs me uid
      match post_content with
      | none => (convs, msgs1, Response.render ("messages"))
      | some raw =>
        let r := handle_send msgs1 me uid raw now newId
        (convs, r.1, r.2)

/-- A concrete User table for the messaging theorems. -/
def usersDemo : List AuthUser :=
  [ { id := 1, is_staff := false, is_superuser := false, date_joined := 0 },
    { id := 2, is_staff := false, is_superuser := false, date_joined := 1 } ]

/-- A concrete Message table: one unread message from user 2 to user 1. -/
def msgsDemo : List Message :=
  [ { id := 1, sender := 2, receiver := 1, content := "hi", timestamp := 10,
      is_read := false } ]

/-- The conversation card user 1 gets from msgsDemo. -/
def convDemo : Conversation :=
  ⟨{ id := 2, is_staff := false, is_superuser := false, date_joined := 1 },
   some { id := 1, sender := 2, receiver := 1, content := "hi", timestamp := 10,
          is_read := false },
   1⟩

/-- Claim C1: admin_approved implies both completion flags, and every operation
that writes Exchange rows — create, accept, reject, mark-complete, admin approve
(view handler and bulk action), bulk reset — preserves the implication: if it
holds before the write it holds after. -/
theorem C1_invariant_preserved (id u1 u2 now user : Nat) (s1 s2 : Option Nat)
    (notes : String) (e : Exchange) (h : exchange_invariant e) :
    exchange_invariant (create_exchange id u1 u2 s1 s2 notes)
    ∧ exchange_invariant (accept_row e)
    ∧ exchange_invariant (reject_row e)
    ∧ exchange_invariant (mark_exchange_complete now user e).1
    ∧ exchange_invariant (admin_approve_exchange now e).1
    ∧ exchange_invariant (approve_exchanges_row now e)
    ∧ exchange_invariant (reset_completion_row e) := by
  unfold exchange_invariant at h ⊢
  refine ⟨by simp [create_exchange], h, h, ?_, ?_, ?_, by simp [reset_completion_row]⟩
  · unfold mark_exchange_complete
    split
    · intro ha
      rcases h ha with ⟨h1, h2⟩
      exact ⟨rfl, h2⟩
    · split
      · intro ha
        rcases h ha with ⟨h1, h2⟩
        exact ⟨h1, rfl⟩
      · exact h
  · unfold admin_approve_exchange both_users_completed at *
    split
    · exact h
    · split
      · exact h
      · rename_i hboth _
        simp only [Bool.not_eq_true', Bool.not_and] at hboth
        intro _
        constructor
        · cases h1 : e.user1_completed
          · rw [h1] at hboth
            simp at hboth
          · rfl
        · cases h2 : e.user2_completed
          · rw [h2] at hboth
            simp at hboth
          · rfl
  · unfold approve_exchanges_row both_users_completed at *
    split
    · rename_i hboth
      simp only [Bool.and_eq_true, Bool.not_eq_true'] at hboth
      intro _
      exact hboth.1
    · exact h

/-- Witness for C1 at a concrete exchange: marking complete preserves the invariant. -/
theorem C1_invariant_preserved_witness :
    exchange_invariant (mark_exchange_complete 7 1 exA).1 :=
  (C1_invariant_preserved 1 1 2 7 1 (some 10) (some 20) "" exA (by decide)).2.2.2.1

/-- Claim C2: completion_status is a pure function of the triple
(admin_approved, user1_completed, user2_completed) — any two rows agreeing on
the triple get the same label — and follows exactly the precedence
admin-approved, then awaiting-admin-approval (both flags), then
partially-complete (exactly one flag), then in-progress. -/
theorem C2_completion_status (e f : Exchange)
    (ha : e.admin_approved = f.admin_approved)
    (h1 : e.user1_completed = f.user1_completed)
    (h2 : e.user2_completed = f.user2_completed) :
    completion_status e = completion_status f
    ∧ (e.admin_approved = true → completion_status e = "Admin Approved")
    ∧ (e.admin_approved = false → e.user1_completed = true → e.user2_completed = true →
        completion_status e = "Awaiting Admin Approval")
    ∧ (e.admin_approved = false → e.user1_completed ≠ e.user2_completed →
        completion_status e = "Partially Complete")
    ∧ (e.admin_approved = false → e.user1_completed = false → e.user2_completed = false →
        completion_status e = "In Progress") := by
  unfold completion_status both_users_completed
  rw [ha, h1, h2]
  refine ⟨rfl, ?_, ?_, ?_, ?_⟩ <;>
    rw [← ha, ← h1, ← h2] <;>
    intro hx <;>
    cases hb1 : e.user1_completed <;>
    cases hb2 : e.user2_completed <;>
    simp_all

/-- Witness for C2 at a concrete exchange: both flags set, not approved, gives
the awaiting-admin-approval label. -/
theorem C2_completion_status_witness :
    completion_status exA = "Awaiting Admin Approval" :=
  (C2_completion_status exA exA rfl rfl rfl).2.2.1 rfl rfl rfl

/-- Claim C3: AdminApprove with both completion flags true and admin_approved
false sets admin_approved, stamps admin_approved_date, and forces status to
completed; with either flag false it reports an error and mutates nothing; when
both flags are true and it is already approved it reports an informational
notice and mutates nothing. -/
theorem C3_admin_approve (now : Nat) (e : Exchange) :
    (e.user1_completed = true → e.user2_completed = true → e.admin_approved = false →
      admin_approve_exchange now e =
        ({ e with
           admin_approved := true, admin_approved_date := some now,
           status := "completed" }, Notice.success))
    ∧ ((e.user1_completed = false ∨ e.user2_completed = false) →
      admin_approve_exchange now e = (e, Notice.error))
    ∧ (e.user1_completed = true → e.user2_completed = true → e.admin_approved = true →
      admin_approve_exchange now e = (e, Notice.info)) := by
  unfold admin_approve_exchange both_users_completed
  refine ⟨?_, ?_, ?_⟩
  · intro h1 h2 ha
    rw [h1, h2, ha]
    simp
  · intro h
    rcases h with h | h <;> rw [h] <;> simp
  · intro h1 h2 ha
    rw [h1, h2, ha]
    simp

/-- Witness for C3 at a concrete exchange: approval succeeds and rewrites the row. -/
theorem C3_admin_approve_witness :
    admin_approve_exchange 9 exA =
      ({ exA with
         admin_approved := true, admin_approved_date := some 9,
         status := "completed" }, Notice.success) :=
  (C3_admin_approve 9 exA).1 rfl rfl rfl

/-- Claim C4: mark-complete is idempotent per participant — on an active
exchange, a second call by a participant whose flag is already set returns the
row unchanged with an informational notice — and no invocation of mark-complete
ever changes the status field. -/
theorem C4_mark_complete (now user : Nat) (e : Exchange)
    (hactive : e.status = "active")
    (hdone : (if user == e.user1 then e.user1_completed else e.user2_completed) = true) :
    mark_exchange_complete now user e = (e, Notice.info)
    ∧ ∀ (m u : Nat) (x : Exchange), (mark_exchange_complete m u x).1.status = x.status := by
  constructor
  · unfold mark_exchange_complete
    cases hu : (user == e.user1) <;> rw [hu] at hdone <;> simp at hdone <;> simp [hu, hdone]
  · intro m u x
    unfold mark_exchange_complete
    split
    · rfl
    · split <;> rfl

/-- Witness for C4 at a concrete exchange: user1 already done, second call is a
no-op with an informational notice. -/
theorem C4_mark_complete_witness :
    mark_exchange_complete 7 1 exA = (exA, Notice.info) :=
  (C4_mark_complete 7 1 exA rfl (by decide)).1

/-- Claim C6 counterexample: on a concrete table where the lookup fails (caller
3 is not user2 of the only row), Accept answers with the 404 page — it does not
redirect, so the failure branch is not a silent redirect. -/
theorem C6_accept_counterexample :
    accept_exchange 3 [exB] 1 = ([exB], Response.notFound)
    ∧ Response.isRedirect (accept_exchange 3 [exB] 1).2 = false := by
  constructor
  · rfl
  · rfl

/-- Claim C6 (amended): Accept flips status pending to active exactly on the
row whose id matches, whose user2 is the caller, and whose status is pending;
for any exchange id that does not resolve to such a row, Accept responds with a
standard not-found page and performs no mutation. -/
theorem C6_accept (caller eid : Nat) (db : List Exchange) :
    (db.find? (accept_lookup caller eid) = none →
      accept_exchange caller db eid = (db, Response.notFound))
    ∧ (∀ e, db.find? (accept_lookup caller eid) = some e →
      e.user2 = caller ∧ e.status = "pending" ∧
      accept_exchange caller db eid =
        (db.map (fun x => if x.id == e.id then accept_row x else x),
         Response.redirect ("dashboard") none)) := by
  constructor
  · intro h
    unfold accept_exchange
    rw [h]
  · intro e h
    have hp := List.find?_some h
    unfold accept_lookup at hp
    simp only [Bool.and_eq_true, beq_iff_eq] at hp
    refine ⟨hp.1.2, hp.2, ?_⟩
    unfold accept_exchange
    rw [h]

/-- Witness for the amended C6: user 2 accepts the concrete pending exchange,
which becomes active. -/
theorem C6_accept_witness :
    accept_exchange 2 [exB] 1 =
      ([exB].map (fun x => if x.id == exB.id then accept_row x else x),
       Response.redirect ("dashboard") none) :=
  ((C6_accept 2 1 [exB]).2 exB (by decide)).2.2

/-- Claim C9: toggle-staff by a staff caller on another user rewrites the target
so that is_staff is flipped and is_superuser equals the new is_staff value; on
the caller themselves it mutates nothing and reports an error. -/
theorem C9_toggle_staff (caller target : AuthUser) (hstaff : caller.is_staff = true) :
    (target.id ≠ caller.id →
      (admin_toggle_staff caller target).1 =
        { target with is_staff := !target.is_staff, is_superuser := !target.is_staff }
      ∧ (admin_toggle_staff caller target).1.is_superuser
          = (admin_toggle_staff caller target).1.is_staff)
    ∧ (target.id = caller.id →
      admin_toggle_staff caller target
        = (target, Notice.error, Response.redirect ("admin_users") none)) := by
  constructor
  · intro hne
    have hb : (target.id == caller.id) = false := by
      simpa using hne
    unfold admin_toggle_staff
    rw [hb]
    simp
  · intro heq
    have hb : (target.id == caller.id) = true := by
      simpa using heq
    unfold admin_toggle_staff
    rw [hb]
    simp

/-- Witness for C9: a staff caller (id 1) toggles user 2, who becomes staff and
superuser together. -/
theorem C9_toggle_staff_witness :
    (admin_toggle_staff { id := 1, is_staff := true, is_superuser := true, date_joined := 0 }
      { id := 2, is_staff := false, is_superuser := false, date_joined := 0 }).1 =
      { id := 2, is_staff := true, is_superuser := true, date_joined := 0 } := by
  have h := (C9_toggle_staff
    { id := 1, is_staff := true, is_superuser := true, date_joined := 0 }
    { id := 2, is_staff := false, is_superuser := false, date_joined := 0 } rfl).1 (by decide)
  simpa using h.1

/-- Claim C10: a proposal against a UserSkill owned by the proposer is rejected
with an error notice and creates no Exchange row, and every Exchange the
propose flow does create has user1 the caller and user1 distinct from user2. -/
theorem C10_propose_no_self (skills : List UserSkill) (caller usid newId : Nat)
    (my_skill_id : Option Nat) (notes : String) :
    (∀ other, skills.find? (fun s => s.id == usid && s.role == "offer") = some other →
      other.user = caller →
      propose_exchange_view skills caller usid my_skill_id notes newId
        = (none, some Notice.error, Response.redirect ("marketplace") none))
    ∧ (∀ ex, (propose_exchange_view skills caller usid my_skill_id notes newId).1 = some ex →
      ex.user1 = caller ∧ ex.user1 ≠ ex.user2) := by
  constructor
  · intro other hfind hown
    have hb : (other.user == caller) = true := by
      simpa using hown
    simp [propose_exchange_view, hfind, hb]
  · intro ex hex
    unfold propose_exchange_view at hex
    cases hfind : skills.find? (fun s => s.id == usid && s.role == "offer") with
    | none => simp [hfind] at hex
    | some other =>
      cases hown : (other.user == caller) with
      | true => simp [hfind, hown] at hex
      | false =>
        cases my_skill_id with
        | none => simp [hfind, hown] at hex
        | some mid =>
          cases hmy : skills.find? (fun s => s.id == mid && s.user == caller && s.role == "offer") with
          | none => simp [hfind, hown, hmy] at hex
          | some my =>
            simp [hfind, hown, hmy] at hex
            subst hex
            refine ⟨rfl, ?_⟩
            show caller ≠ other.user
            intro hc
            rw [← hc] at hown
            simp at hown

/-- Witness for C10: user 5 proposing against their own offered skill is
rejected with an error notice and no row is created. -/
theorem C10_propose_no_self_witness :
    propose_exchange_view skills0 5 1 (some 1) "" 99
      = (none, some Notice.error, Response.redirect ("marketplace") none) :=
  (C10_propose_no_self skills0 5 1 99 (some 1) "").1
    { id := 1, user := 5, skill := 10, role := "offer", proficiency := "beginner",
      experience_years := 0 } (by decide) rfl

/-- Soundness of the match loop: when every pending candidate satisfies the
candidate-query predicate, every accumulated entry satisfies P, and P holds of
any entry assembled from a candidate together with a found seek row, then every
entry of the loop result satisfies P. -/
theorem find_matches_go_sound (skills : List UserSkill) (u : Nat)
    (seeking offering : List Nat) (P : MatchEntry → Prop)
    (hP : ∀ m t, m ∈ skills → (m.user == u) = false → m.role = "offer" →
      m.skill ∈ seeking → t ∈ skills → t.user = m.user → t.role = "seek" →
      t.skill ∈ offering →
      P { user_id := m.user, offer := m.skill, want := t.skill }) :
    ∀ pm acc,
      (∀ m ∈ pm, m ∈ skills ∧ (m.user == u) = false ∧ m.role = "offer" ∧ m.skill ∈ seeking) →
      (∀ e ∈ acc, P e) →
      ∀ e ∈ find_matches_go skills offering acc pm, P e := by
  intro pm
  induction pm with
  | nil =>
    intro acc hpm hacc e he
    rw [find_matches_go] at he
    exact hacc e he
  | cons m rest ih =>
    intro acc hpm hacc e he
    rw [find_matches_go] at he
    obtain ⟨hm, hne, hrole, hsk⟩ := hpm m (List.mem_cons_self m rest)
    have hrest : ∀ x ∈ rest, x ∈ skills ∧ (x.user == u) = false ∧ x.role = "offer"
        ∧ x.skill ∈ seeking :=
      fun x hx => hpm x (List.mem_cons_of_mem m hx)
    cases hfind : skills.find?
        (fun s => s.user == m.user && s.role == "seek" && offering.contains s.skill) with
    | none =>
      simp only [hfind] at he
      exact ih acc hrest hacc e he
    | some t =>
      simp only [hfind] at he
      have ht := List.mem_of_find?_eq_some hfind
      have hpred := List.find?_some hfind
      simp only [Bool.and_eq_true, beq_iff_eq] at hpred
      have htu : t.user = m.user := hpred.1.1
      have htrole : t.role = "seek" := hpred.1.2
      have htsk : t.skill ∈ offering := by
        simpa using hpred.2
      have hentry : P { user_id := m.user, offer := m.skill, want := t.skill } :=
        hP m t hm hne hrole hsk ht htu htrole htsk
      have hacc2 : ∀ x ∈ acc ++ [(⟨m.user, m.skill, t.skill⟩ : MatchEntry)], P x := by
        intro x hx
        rcases List.mem_append.mp hx with hx | hx
        · exact hacc x hx
        · rw [List.mem_singleton] at hx
          rw [hx]
          exact hentry
      split at he
      · exact hacc2 e he
      · exact ih _ hrest hacc2 e he

/-- The match loop returns at most 3 entries when started below the cap. -/
theorem find_matches_go_length (skills : List UserSkill) (offering : List Nat) :
    ∀ pm acc, acc.length ≤ 2 →
      (find_matches_go skills offering acc pm).length ≤ 3 := by
  intro pm
  induction pm with
  | nil =>
    intro acc h
    rw [find_matches_go]
    omega
  | cons m rest ih =>
    intro acc h
    rw [find_matches_go]
    cases hfind : skills.find?
        (fun s => s.user == m.user && s.role == "seek" && offering.contains s.skill) with
    | none =>
      simp only [hfind]
      exact ih acc h
    | some t =>
      simp only [hfind]
      split
      · rename_i hge
        simp
        omega
      · rename_i hlt
        apply ih
        simp at hlt ⊢
        omega

/-- Claim C5: the dashboard match list never contains the viewer; every entry
is reciprocal — witnessed by UserSkill rows, its counterpart offers a skill the
viewer seeks and seeks a skill the viewer offers; the list has at most 3
entries; and it is empty whenever the viewer has no sought or no offered
skills. -/
theorem C5_find_matches (skills : List UserSkill) (u : Nat) :
    (∀ e ∈ find_matches skills u,
      e.user_id ≠ u
      ∧ (∃ s ∈ skills, s.user = e.user_id ∧ s.role = "offer" ∧ s.skill = e.offer
          ∧ e.offer ∈ my_seeking_skills skills u)
      ∧ (∃ t ∈ skills, t.user = e.user_id ∧ t.role = "seek" ∧ t.skill = e.want
          ∧ e.want ∈ my_offering_skills skills u))
    ∧ (find_matches skills u).length ≤ 3
    ∧ ((my_seeking_skills skills u = [] ∨ my_offering_skills skills u = []) →
        find_matches skills u = []) := by
  refine ⟨?_, ?_, ?_⟩
  · intro e he
    unfold find_matches at he
    split at he
    · simp at he
    · refine find_matches_go_sound skills u (my_seeking_skills skills u)
        (my_offering_skills skills u)
        (fun e => e.user_id ≠ u
          ∧ (∃ s ∈ skills, s.user = e.user_id ∧ s.role = "offer" ∧ s.skill = e.offer
              ∧ e.offer ∈ my_seeking_skills skills u)
          ∧ (∃ t ∈ skills, t.user = e.user_id ∧ t.role = "seek" ∧ t.skill = e.want
              ∧ e.want ∈ my_offering_skills skills u))
        ?_ (potential_matches skills u (my_seeking_skills skills u)) [] ?_
        (by intro x hx; exact absurd hx (List.not_mem_nil x)) e he
      · intro m t hm hne hrole hsk ht htu htrole htsk
        exact ⟨by simpa using hne, ⟨m, hm, rfl, hrole, rfl, hsk⟩,
          ⟨t, ht, htu, htrole, rfl, htsk⟩⟩
      · intro m hm
        have h1 := List.mem_of_mem_take hm
        rw [List.mem_filter] at h1
        obtain ⟨hmem, hpred⟩ := h1
        simp only [Bool.and_eq_true, Bool.not_eq_true', beq_iff_eq] at hpred
        refine ⟨hmem, hpred.2, hpred.1.2, ?_⟩
        simpa using hpred.1.1
  · unfold find_matches
    split
    · simp
    · exact find_matches_go_length skills (my_offering_skills skills u) _ [] (by simp)
  · intro h
    unfold find_matches
    split
    · rfl
    · rename_i hcond
      exfalso
      rcases h with h | h <;> simp [h] at hcond

/-- Witness for C5: on the concrete reciprocal table, user 1 gets exactly the
match with user 2, and the theorem yields its reciprocity facts. -/
theorem C5_find_matches_witness :
    matchDemo ∈ find_matches skillsMatch 1
    ∧ (matchDemo.user_id ≠ 1
      ∧ (∃ s ∈ skillsMatch, s.user = matchDemo.user_id ∧ s.role = "offer"
          ∧ s.skill = matchDemo.offer ∧ matchDemo.offer ∈ my_seeking_skills skillsMatch 1)
      ∧ (∃ t ∈ skillsMatch, t.user = matchDemo.user_id ∧ t.role = "seek"
          ∧ t.skill = matchDemo.want ∧ matchDemo.want ∈ my_offering_skills skillsMatch 1)) :=
  ⟨by decide, (C5_find_matches skillsMatch 1).1 matchDemo (by decide)⟩

/-- The unread counter computed over the pair messages equals the count over
the whole stored Message table of unread messages from the counterpart to the
viewer. -/
theorem unread_count_eq (msgs : List Message) (me uid : Nat) :
    unread_count msgs me uid
      = (msgs.filter (fun m => m.sender == uid && m.receiver == me && !m.is_read)).length := by
  unfold unread_count pair_messages
  rw [List.filter_filter]
  congr 1
  apply List.filter_congr
  intro m hm
  cases h1 : (m.sender == uid) <;> cases h2 : (m.receiver == me) <;>
    cases h3 : (m.sender == me) <;> cases h4 : (m.receiver == uid) <;>
    cases h5 : m.is_read <;> simp [h1, h2, h3, h4, h5]

/-- In every branch of messages_view, the conversation-list component is the
sorted list built from the original stored messages. -/
theorem messages_view_fst (users : List AuthUser) (msgs : List Message) (me : Nat)
    (user_id : Option Nat) (post_content : Option String) (now newId : Nat) :
    (messages_view users msgs me user_id post_content now newId).1
      = conversations_sorted users msgs me := by
  unfold messages_view
  cases user_id with
  | none => rfl
  | some uid =>
    cases hfind : users.find? (fun v => v.id == uid) with
    | none => simp [hfind]
    | some v =>
      cases post_content with
      | none => simp [hfind]
      | some raw => simp [hfind]

/-- Claim C7: every conversation card of the viewer reports as unread_count the
number of stored messages from that counterpart to the viewer that are unread —
counted on the store as it was before the read-marking side effect of opening a
thread — and the conversation list is pairwise sorted by last-message timestamp
descending, the key falling back to the counterpart account-creation time. -/
theorem C7_conversations (users : List AuthUser) (msgs : List Message) (me : Nat)
    (user_id : Option Nat) (post_content : Option String) (now newId : Nat) :
    (∀ c ∈ (messages_view users msgs me user_id post_content now newId).1,
      c.unread_count = (msgs.filter
        (fun m => m.sender == c.user.id && m.receiver == me && !m.is_read)).length)
    ∧ (messages_view users msgs me user_id post_content now newId).1.Pairwise
        (fun a b => conversation_sort_key b ≤ conversation_sort_key a) := by
  rw [messages_view_fst]
  constructor
  · intro c hc
    unfold conversations_sorted at hc
    rw [List.mem_mergeSort] at hc
    unfold build_conversations at hc
    rw [List.mem_filterMap] at hc
    obtain ⟨uid, huid, hc⟩ := hc
    cases hfind : users.find? (fun v => v.id == uid) with
    | none => simp [hfind] at hc
    | some v =>
      simp only [hfind, Option.some_inj] at hc
      have hv : v.id = uid := by
        simpa using List.find?_some hfind
      rw [← hc]
      rw [unread_count_eq]
      rw [hv]
  · unfold conversations_sorted
    have htrans : ∀ a b c : Conversation, conv_le a b → conv_le b c → conv_le a c := by
      intro a b c hab hbc
      simp only [conv_le, decide_eq_true_eq] at hab hbc ⊢
      omega
    have htotal : ∀ a b : Conversation, conv_le a b || conv_le b a := by
      intro a b
      simp only [conv_le, Bool.or_eq_true, decide_eq_true_eq]
      omega
    have hs := List.sorted_mergeSort htrans htotal (build_conversations users msgs me)
    exact hs.imp (fun h => by simpa [conv_le] using h)

/-- Witness for C7: for viewer 1 on the concrete tables, the single card for
counterpart 2 is in the list and its unread_count is the unread tally. -/
theorem C7_conversations_witness :
    convDemo ∈ (messages_view usersDemo msgsDemo 1 none none 0 0).1
    ∧ convDemo.unread_count = (msgsDemo.filter
        (fun m => m.sender == convDemo.user.id && m.receiver == 1 && !m.is_read)).length := by
  have hmem : convDemo ∈ (messages_view usersDemo msgsDemo 1 none none 0 0).1 := by
    rw [messages_view_fst]
    unfold conversations_sorted
    rw [List.mem_mergeSort]
    decide
  exact ⟨hmem, (C7_conversations usersDemo msgsDemo 1 none none 0 0).1 convDemo hmem⟩

/-- Claim C8: in the send handling of messages_view, content that trims to the
empty string writes nothing and renders the same thread unchanged, while
non-empty trimmed content appends exactly one Message row — sender the viewer,
receiver the counterpart, the trimmed content, unread — and redirects back to
the same thread. -/
theorem C8_handle_send (msgs : List Message) (me uid : Nat) (raw : String)
    (now newId : Nat) :
    (strip raw = "" →
      handle_send msgs me uid raw now newId = (msgs, Response.render ("messages")))
    ∧ (strip raw ≠ "" →
      handle_send msgs me uid raw now newId
        = (msgs ++ [⟨newId, me, uid, strip raw, now, false⟩],
           Response.redirect ("conversation") (some uid))) := by
  constructor
  · intro h
    unfold handle_send
    rw [if_pos h]
  · intro h
    unfold handle_send
    rw [if_neg h]

/-- Witness for C8: whitespace-only content is a no-op render, and a real
message is appended and redirected. -/
theorem C8_handle_send_witness :
    handle_send msgsDemo 1 2 " " 0 5 = (msgsDemo, Response.render ("messages"))
    ∧ handle_send msgsDemo 1 2 " hi " 0 5
      = (msgsDemo ++ [⟨5, 1, 2, strip " hi ", 0, false⟩],
         Response.redirect ("conversation") (some 2)) :=
  ⟨(C8_handle_send msgsDemo 1 2 " " 0 5).1 (by decide),
   (C8_handle_send msgsDemo 1 2 " hi " 0 5).2 (by decide)⟩

end SkillsExchange
